import Mathlib

/-!
# SpoofGuard — verification of the email-authentication evidence pipeline

Shallow embedding of the SpoofGuard browser extension's pure logic
(status normalization, header parsing, Authentication-Results token
extraction, SPF/DKIM/DMARC validation, DNS-lookup error handling, the
spam-context override and the two scoring formulas), translated from

  * `background.js` (the unnamed background service worker source)
  * `content/content.js`
  * `background/gmail-api.js`
  * `popup/popup.js`

JavaScript strings are modelled as `List Char`.  `String.prototype.match`
with the simple regular expressions the code uses (`key=([^;\s]+)` and
friends) is modelled by explicit left-to-right scanners that reproduce
the first-match semantics of those patterns.  `toLowerCase` is modelled
ASCII-only (`Char.toLower`), and `\s` / `trim` by `Char.isWhitespace`;
every string the repository ever feeds these functions is ASCII, where
the two agree with JavaScript.  JavaScript numbers are modelled as exact
rationals; the float error of `0.2` (about 1e-17 in `w * 0.2`) never
moves a value across a `Math.round` boundary for the weights 30/35 used
here, so rounding agrees with the JavaScript doubles on all reachable
scores.
-/

/-- Shorthand: the character list of a string literal. -/
def lc (s : String) : List Char := s.data

/-- JavaScript `\s` (ASCII part): the whitespace test used by `trim`,
`/^\s/` and the `[^;\s]` character classes. -/
def isWSp (c : Char) : Bool := c.isWhitespace

/-- `String.prototype.toLowerCase`, ASCII-only. -/
def toLowerL (s : List Char) : List Char := s.map Char.toLower

/-- Left trim: drop leading whitespace. -/
def trimLeftL (s : List Char) : List Char := s.dropWhile isWSp

/-- Right trim: drop trailing whitespace. -/
def trimRightL (s : List Char) : List Char := (s.reverse.dropWhile isWSp).reverse

/-- `String.prototype.trim`. -/
def trimL (s : List Char) : List Char := trimRightL (trimLeftL s)

/-- `startsWithL p s` models `s.startsWith(p)` (first argument is the
pattern). -/
def startsWithL : List Char → List Char → Bool
  | [], _ => true
  | _ :: _, [] => false
  | p :: ps, c :: cs => p = c && startsWithL ps cs

/-- `a.endsWith(b)`: `b` is a suffix of `a`. -/
def endsWithL (s suffix : List Char) : Bool := startsWithL suffix.reverse s.reverse

/-- `hay.includes(needle)`: substring containment, scanning left to right. -/
def containsSub (needle : List Char) : List Char → Bool
  | [] => startsWithL needle []
  | c :: cs => startsWithL needle (c :: cs) || containsSub needle cs

/-- Case-insensitive substring test, for `/lit/i.test(s)` style regexes. -/
def containsSubCI (needle hay : List Char) : Bool :=
  containsSub (toLowerL needle) (toLowerL hay)

/-- JavaScript truthiness of a possibly-missing string: `undefined`,
`null` and the empty string are falsy. -/
def truthy : Option (List Char) → Bool
  | none => false
  | some s => s ≠ []

/-- JavaScript `a || b` over possibly-missing strings. -/
def jsOr (a b : Option (List Char)) : Option (List Char) :=
  if truthy a then a else b

/-- First value bound to `k` in an association list (a JavaScript object
read `m[k]`, `none` for `undefined`). -/
def getKey (m : List (List Char × List Char)) (k : List Char) :
    Option (List Char) :=
  match m with
  | [] => none
  | (k', v) :: rest => if k' = k then some v else getKey rest k

/-- JavaScript object assignment `m[k] = v`: replaces an existing
binding in place, otherwise appends. -/
def setKey (m : List (List Char × List Char)) (k v : List Char) :
    List (List Char × List Char) :=
  match m with
  | [] => [(k, v)]
  | (k', v') :: rest =>
      if k' = k then (k', v) :: rest else (k', v') :: setKey rest k v

/-! ## AuthStatusNormalizer

Two distinct normalizers coexist in the repository. -/

namespace SpoofGuardContent

/-- `content.js` `normalizeAuthStatus`: exact-token matching on the
lowercased, trimmed status (a missing or empty status is falsy and
yields `unknown`). -/
def normalizeAuthStatus (status : List Char) : List Char :=
  if status = [] then lc "unknown"
  else
    let normalized := trimL (toLowerL status)
    if normalized = lc "pass" ∨ normalized = lc "passed" ∨
       normalized = lc "ok" ∨ normalized = lc "success" then lc "pass"
    else if normalized = lc "fail" ∨ normalized = lc "failed" ∨
            normalized = lc "failure" ∨ normalized = lc "error" then lc "fail"
    else if normalized = lc "none" ∨ normalized = lc "absent" ∨
            normalized = lc "missing" then lc "none"
    else if normalized = lc "neutral" ∨ normalized = lc "softfail" ∨
            normalized = lc "temperror" ∨ normalized = lc "permerror" then
      normalized
    else if normalized = lc "suspicious" then lc "fail"
    else if normalized = lc "present" ∨ normalized = lc "found" then lc "present"
    else lc "unknown"

end SpoofGuardContent

namespace GmailAPIClient

/-- `gmail-api.js` `normalizeAuthStatus`: substring matching on the
lowercased, trimmed status, first match in source order wins. -/
def normalizeAuthStatus (status : List Char) : List Char :=
  let n := trimL (toLowerL status)
  if containsSub (lc "pass") n then lc "pass"
  else if containsSub (lc "fail") n then lc "fail"
  else if containsSub (lc "none") n then lc "none"
  else if containsSub (lc "neutral") n then lc "neutral"
  else if containsSub (lc "softfail") n then lc "softfail"
  else if containsSub (lc "temperror") n then lc "temperror"
  else if containsSub (lc "permerror") n then lc "permerror"
  else lc "unknown"

end GmailAPIClient

/-! ## Regex scanners

The repository only uses regular expressions of the shape
`marker` followed by one-or-more characters of a class.  `scanTok ci
marker p s` models `s.match(/marker(P+)/flag)` capturing group 1: it
scans left to right for the first position where `marker` matches
(case-insensitively when `ci` is set, for the `i` flag) followed by at
least one character satisfying `p`, and returns the maximal run of such
characters. -/

/-- Match `marker` at the head of `s` (case-insensitive if `ci`),
returning the rest on success. -/
def stripMarker (ci : Bool) : List Char → List Char → Option (List Char)
  | [], s => some s
  | _ :: _, [] => none
  | m :: ms, c :: cs =>
      if (if ci then m.toLower = c.toLower else m = c) then
        stripMarker ci ms cs
      else none

/-- One attempt of `scanTok` at the current position. -/
def tryTokAt (ci : Bool) (marker : List Char) (p : Char → Bool)
    (s : List Char) : Option (List Char) :=
  match stripMarker ci marker s with
  | none => none
  | some rest =>
      let tok := rest.takeWhile p
      if tok = [] then none else some tok

/-- `s.match(/marker(P+)/)` group 1 (first match), `none` when the
pattern matches nowhere. -/
def scanTok (ci : Bool) (marker : List Char) (p : Char → Bool) :
    List Char → Option (List Char)
  | [] => none
  | c :: cs =>
      match tryTokAt ci marker p (c :: cs) with
      | some tok => some tok
      | none => scanTok ci marker p cs

/-- The `[^;\s]` character class. -/
def notScWs (c : Char) : Bool := !(c = ';' || isWSp c)

/-- JavaScript `Math.round`: round half toward positive infinity. -/
def jsRound (q : ℚ) : Int := ⌊q + 1 / 2⌋

/-- `s.indexOf(c)` (with `none` for `-1`): index of the first character
satisfying `p`. -/
def firstIdx (p : Char → Bool) : List Char → Option Nat
  | [] => none
  | c :: cs => if p c then some 0 else (firstIdx p cs).map (· + 1)

/-! ## SpoofGuardBackground (background service worker)

`parseEmailHeaders`, `performDNSLookup` and the three policy
validators `validateSPF` / `validateDKIM` / `validateDMARC`. -/

namespace SpoofGuardBackground

/-- Mutable state of the `lines.forEach` loop in `parseEmailHeaders`. -/
structure ParseState where
  currentHeader : List Char
  currentValue : List Char
  parsed : List (List Char × List Char)
  deriving DecidableEq, Repr

/-- One iteration of the `forEach` body: a line starting with
whitespace continues the previous header; otherwise the previous header
is saved and, when the line has a colon at a positive index, a new
header begins. -/
def parseLine (st : ParseState) (line : List Char) : ParseState :=
  if line ≠ [] ∧ isWSp (line.headD ' ') then
    { st with currentValue := st.currentValue ++ ' ' :: trimL line }
  else
    let parsed' :=
      if st.currentHeader ≠ [] then
        setKey st.parsed (toLowerL st.currentHeader) (trimL st.currentValue)
      else st.parsed
    match firstIdx (· = ':') line with
    | some i =>
        if 0 < i then
          { currentHeader := trimL (line.take i),
            currentValue := trimL (line.drop (i + 1)),
            parsed := parsed' }
        else { st with parsed := parsed' }
    | none => { st with parsed := parsed' }

/-- `headers.split('\n')`. -/
def splitNl : List Char → List (List Char)
  | [] => [[]]
  | c :: cs =>
      if c = '\n' then [] :: splitNl cs
      else
        match splitNl cs with
        | [] => [[c]]
        | h :: t => (c :: h) :: t

/-- `SpoofGuardBackground.parseEmailHeaders` on a raw header string:
fold the `forEach` body over the lines, then save the last header. -/
def parseEmailHeaders (headers : List Char) : List (List Char × List Char) :=
  let final := (splitNl headers).foldl parseLine ⟨[], [], []⟩
  if final.currentHeader ≠ [] then
    setKey final.parsed (toLowerL final.currentHeader) (trimL final.currentValue)
  else final.parsed

/-- Result of `validateSPF`: `{status, details, record}`. -/
structure SPFResult where
  status : List Char
  details : List Char
  record : Option (List Char)
  deriving DecidableEq, Repr

/-- Result of `validateDKIM`: `{status, details, signature?}`. -/
structure DKIMResult where
  status : List Char
  details : List Char
  signature : Option (List Char)
  deriving DecidableEq, Repr

/-- Result of `validateDMARC`: `{status, details, record, policy?}`. -/
structure DMARCResult where
  status : List Char
  details : List Char
  record : Option (List Char)
  policy : Option (List Char)
  deriving DecidableEq, Repr

/-- `spfRecords.find(r => r.startsWith('v=spf1'))`. -/
def findSpfRecord (spfRecords : List (List Char)) : Option (List Char) :=
  spfRecords.find? (fun r => startsWithL (lc "v=spf1") r)

/-- `dmarcRecords.find(r => r.startsWith('v=DMARC1'))`. -/
def findDmarcRecord (dmarcRecords : List (List Char)) : Option (List Char) :=
  dmarcRecords.find? (fun r => startsWithL (lc "v=DMARC1") r)

/-- `validateSPF(headers, spfRecords)`: no `v=spf1` record means `none`
before the Authentication-Results token is even consulted; with a
record, the explicit `spf=` token (lowercased) wins, then the
`include:`/`a:`/`mx:` presence heuristic, then `neutral`. -/
def validateSPF (headers : List (List Char × List Char))
    (spfRecords : List (List Char)) : SPFResult :=
  match findSpfRecord spfRecords with
  | none => ⟨lc "none", lc "No SPF record found", none⟩
  | some spfRecord =>
      let authResults := (getKey headers (lc "authentication-results")).getD []
      match scanTok true (lc "spf=") notScWs authResults with
      | some tok =>
          let status := toLowerL tok
          ⟨status, lc "SPF " ++ status, some spfRecord⟩
      | none =>
          if containsSub (lc "include:") spfRecord ||
             containsSub (lc "a:") spfRecord ||
             containsSub (lc "mx:") spfRecord then
            ⟨lc "pass", lc "SPF record exists with valid mechanisms", some spfRecord⟩
          else
            ⟨lc "neutral", lc "SPF record found but status unclear", some spfRecord⟩

/-- `validateDKIM(headers)`: a falsy `dkim-signature` header means
`none` before the Authentication-Results token is consulted; with a
signature, the explicit `dkim=` token (lowercased) wins, else `pass`. -/
def validateDKIM (headers : List (List Char × List Char)) : DKIMResult :=
  let dkimSignature := getKey headers (lc "dkim-signature")
  if ¬ truthy dkimSignature then
    ⟨lc "none", lc "No DKIM signature found", none⟩
  else
    let authResults := (getKey headers (lc "authentication-results")).getD []
    match scanTok true (lc "dkim=") notScWs authResults with
    | some tok =>
        let status := toLowerL tok
        ⟨status, lc "DKIM " ++ status, dkimSignature⟩
    | none => ⟨lc "pass", lc "DKIM signature present", dkimSignature⟩

/-- `validateDMARC(headers, dmarcRecords)`: no `v=DMARC1` record means
`none` before the Authentication-Results token is consulted; with a
record, the explicit `dmarc=` token (lowercased) wins, else `pass` with
the parsed `p=` policy. -/
def validateDMARC (headers : List (List Char × List Char))
    (dmarcRecords : List (List Char)) : DMARCResult :=
  match findDmarcRecord dmarcRecords with
  | none => ⟨lc "none", lc "No DMARC record found", none, none⟩
  | some dmarcRecord =>
      let authResults := (getKey headers (lc "authentication-results")).getD []
      match scanTok true (lc "dmarc=") notScWs authResults with
      | some tok =>
          let status := toLowerL tok
          ⟨status, lc "DMARC " ++ status, some dmarcRecord, none⟩
      | none =>
          let policy :=
            (scanTok false (lc "p=") (· ≠ ';') dmarcRecord).getD (lc "none")
          ⟨lc "pass", lc "DMARC policy: " ++ policy, some dmarcRecord, some policy⟩

/-- One record of the DNS-over-HTTPS `Answer` array. -/
structure DNSAnswer where
  type : Nat
  data : List Char
  deriving DecidableEq, Repr

/-- Outcome of the `fetch` + `response.json()` sequence inside
`performDNSLookup`, supplied as an explicit argument: the network
request may throw, return a non-OK status, yield an unparseable body,
or succeed with an optional `Answer` array. -/
inductive FetchOutcome where
  | fetchError
  | badStatus (code : Nat)
  | parseFail
  | ok (answer : Option (List DNSAnswer))
  deriving DecidableEq, Repr

/-- A `dnsCache` entry: `{data, timestamp}`. -/
structure DNSCacheEntry where
  data : List (List Char)
  timestamp : Int
  deriving DecidableEq, Repr

/-- Lookup in the `dnsCache` map. -/
def cacheGet (cache : List (List Char × DNSCacheEntry)) (k : List Char) :
    Option DNSCacheEntry :=
  match cache with
  | [] => none
  | (k', e) :: rest => if k' = k then some e else cacheGet rest k

/-- `dnsCache.set`: replace or append. -/
def cacheSet (cache : List (List Char × DNSCacheEntry)) (k : List Char)
    (e : DNSCacheEntry) : List (List Char × DNSCacheEntry) :=
  match cache with
  | [] => [(k, e)]
  | (k', e') :: rest =>
      if k' = k then (k', e) :: rest else (k', e') :: cacheSet rest k e

/-- `performDNSLookup(domain, recordType)`: serve a fresh cache entry
without fetching; otherwise fetch — any throw (network error, non-OK
status, JSON parse failure) is caught and yields `[]` — and on success
filter the answers to TXT (`type === 16`), strip every `"` from each
record, and cache the result.  Returns the records and the updated
cache. -/
def performDNSLookup (cache : List (List Char × DNSCacheEntry))
    (cacheTimeout now : Int) (domain recordType : List Char)
    (outcome : FetchOutcome) :
    List (List Char) × List (List Char × DNSCacheEntry) :=
  let cacheKey := domain ++ ':' :: recordType
  let fetchPath :=
    match outcome with
    | .ok answer =>
        let records := answer.getD []
        let txtRecords :=
          (records.filter (fun r => r.type = 16)).map
            (fun r => r.data.filter (· ≠ '"'))
        (txtRecords, cacheSet cache cacheKey ⟨txtRecords, now⟩)
    | _ => ([], cache)
  match cacheGet cache cacheKey with
  | some cached =>
      if now - cached.timestamp < cacheTimeout then (cached.data, cache)
      else fetchPath
  | none => fetchPath

/-- Whether `performDNSLookup` would serve from cache: entry present
and fresh. -/
def cacheHitFresh (cache : List (List Char × DNSCacheEntry))
    (cacheTimeout now : Int) (domain recordType : List Char) : Bool :=
  match cacheGet cache (domain ++ ':' :: recordType) with
  | some cached => now - cached.timestamp < cacheTimeout
  | none => false

/-- Whether a fetch outcome is a failure (throwing or non-OK or
unparseable). -/
def FetchOutcome.isFailure : FetchOutcome → Bool
  | .ok _ => false
  | _ => true

/-- `SpoofGuardBackground.calculateSecurityScore(analysis)`: SPF 30,
DKIM 35, DMARC 35; `pass` full weight, `softfail`/`neutral` half,
`temperror`/`permerror` a fifth, everything else zero; rounded. -/
def bgStatusPoints (w : ℚ) (status : List Char) : ℚ :=
  if status = lc "pass" then w
  else if status = lc "softfail" ∨ status = lc "neutral" then w * (5 / 10)
  else if status = lc "temperror" ∨ status = lc "permerror" then w * (2 / 10)
  else 0

/-- The background worker's authentication-only score (no bonuses, no
penalties, no clamp). -/
def calculateSecurityScore (spfStatus dkimStatus dmarcStatus : List Char) : Int :=
  jsRound (bgStatusPoints 30 spfStatus + bgStatusPoints 35 dkimStatus +
    bgStatusPoints 35 dmarcStatus)

/-- `determineRiskLevel`: shared tier mapping. -/
def determineRiskLevel (securityScore : Int) : List Char :=
  if 80 ≤ securityScore then lc "low"
  else if 50 ≤ securityScore then lc "medium"
  else lc "high"

end SpoofGuardBackground

/-! ## SpoofGuardContent (content script) -/

namespace SpoofGuardContent

/-- One `{status, details}` check value. -/
structure AuthCheck where
  status : List Char
  details : List Char
  deriving DecidableEq, Repr

/-- The `{spf, dkim, dmarc}` triple of check values flowing between the
extraction tiers. -/
structure AuthTriple where
  spf : AuthCheck
  dkim : AuthCheck
  dmarc : AuthCheck
  deriving DecidableEq, Repr

/-- The triple the spam/danger override substitutes. -/
def suspiciousTriple : AuthTriple :=
  ⟨⟨lc "suspicious", lc "Email found in spam folder or flagged as dangerous"⟩,
   ⟨lc "suspicious", lc "Email found in spam folder or flagged as dangerous"⟩,
   ⟨lc "suspicious", lc "Email found in spam folder or flagged as dangerous"⟩⟩

/-- The all-unknown default triple. -/
def unknownTriple : AuthTriple :=
  ⟨⟨lc "unknown", lc "SPF authentication: unknown"⟩,
   ⟨lc "unknown", lc "DKIM signature: unknown"⟩,
   ⟨lc "unknown", lc "DMARC policy: unknown"⟩⟩

/-- The test guarding the spam/danger block of `getGmailHeadersFromDOM`:
all three statuses still `'unknown'`. -/
def allUnknown (r : AuthTriple) : Bool :=
  r.spf.status = lc "unknown" && r.dkim.status = lc "unknown" &&
    r.dmarc.status = lc "unknown"

/-- The tail of `getGmailHeadersFromDOM` after the extraction tiers:
when no extraction produced results (`none`) or every check is still
`unknown`, substitute the synthetic `suspicious` triple if the page
context signals a spam label or a danger banner, else the `unknown`
triple; otherwise keep the extracted triple untouched.  `urlSpam` is
the URL spam-label test and `dangerBanner` the alert-role banner test
(`isInSpamFolder = urlSpam || dangerBanner`). -/
def applySpamOverride (authResults : Option AuthTriple)
    (urlSpam dangerBanner : Bool) : AuthTriple :=
  let isInSpamFolder := urlSpam || dangerBanner
  match authResults with
  | none => if isInSpamFolder then suspiciousTriple else unknownTriple
  | some r =>
      if allUnknown r then
        if isInSpamFolder then suspiciousTriple else unknownTriple
      else r

/-- `content.js` `extractDomain`: first `@`-marked run of
non-`>`/non-space characters, lowercased; `null` when absent. -/
def extractDomain (email : Option (List Char)) : Option (List Char) :=
  match email with
  | none => none
  | some e =>
      if e = [] then none
      else (scanTok false (lc "@") (fun c => !(c = '>' || isWSp c)) e).map toLowerL

/-- `isKnownEmailProvider`: only `gmail.com` and `google.com`. -/
def isKnownEmailProvider (domain : Option (List Char)) : Bool :=
  match domain with
  | none => false
  | some d => d = lc "gmail.com" || d = lc "google.com"

/-- `content.js` per-mechanism points: `pass` full, `softfail`/`neutral`
half, `none` zero, `present` a fifth, `fail` zero, anything else
(`unknown` included) a fifth. -/
def statusPoints (w : ℚ) (status : List Char) : ℚ :=
  if status = lc "pass" then w
  else if status = lc "softfail" ∨ status = lc "neutral" then w * (5 / 10)
  else if status = lc "none" then 0
  else if status = lc "present" then w * (2 / 10)
  else if status = lc "fail" then 0
  else w * (2 / 10)

/-- The fields of the analysis object that
`SpoofGuardContent.calculateSecurityScore` reads. -/
structure ScoreInput where
  spfStatus : List Char
  dkimStatus : List Char
  dmarcStatus : List Char
  hasAuthResults : Bool
  isKnownProvider : Bool
  isInSpamFolder : Bool
  deriving DecidableEq, Repr

/-- `content.js` `calculateSecurityScore`: mechanism points, +10 for
real auth data, −20 for an unknown provider with ≥2 `fail`/`unknown`
checks, −30 for spam context, rounded and clamped to `[0, 100]`. -/
def calculateSecurityScore (a : ScoreInput) : Int :=
  let base := statusPoints 30 a.spfStatus + statusPoints 35 a.dkimStatus +
    statusPoints 35 a.dmarcStatus
  let s1 := base + (if a.hasAuthResults then 10 else 0)
  let failedAuths :=
    ([a.spfStatus, a.dkimStatus, a.dmarcStatus].filter
      (fun st => st = lc "fail" || st = lc "unknown")).length
  let s2 := if !a.isKnownProvider && decide (2 ≤ failedAuths) then s1 - 20 else s1
  let s3 := if a.isInSpamFolder then s2 - 30 else s2
  max 0 (min 100 (jsRound s3))

/-- `content.js` `determineRiskLevel`. -/
def determineRiskLevel (securityScore : Int) : List Char :=
  if 80 ≤ securityScore then lc "low"
  else if 50 ≤ securityScore then lc "medium"
  else lc "high"

end SpoofGuardContent

namespace SpoofGuardContent

/-- A duck-typed per-check value inside `emailData.authResults`: either
a bare status string or a `{status?, details?}` object. -/
inductive RawAuth where
  | str (s : List Char)
  | obj (status : Option (List Char)) (details : Option (List Char))
  deriving DecidableEq, Repr

/-- `typeof raw === 'string' ? raw : (raw && raw.status) || 'unknown'`. -/
def rawStatusInput : Option RawAuth → List Char
  | some (.str s) => s
  | some (.obj st _) => if truthy st then st.getD [] else lc "unknown"
  | none => lc "unknown"

/-- The truthy `raw.details`, when the `authResults.X && authResults.X.details`
chain holds. -/
def rawDetailsOpt : Option RawAuth → Option (List Char)
  | some (.obj _ (some d)) => if d = [] then none else some d
  | _ => none

/-- The `authResults` object passed into `simulateHeaderAnalysis`. -/
structure AuthResultsIn where
  spf : Option RawAuth
  dkim : Option RawAuth
  dmarc : Option RawAuth
  deriving DecidableEq, Repr

/-- The three `Math.random()` draws of the simulated fallback path. -/
structure Rand where
  r1 : ℚ
  r2 : ℚ
  r3 : ℚ
  deriving DecidableEq, Repr

/-- The canonical analysis record `simulateHeaderAnalysis` returns. -/
structure EmailAnalysis where
  spf : AuthCheck
  dkim : AuthCheck
  dmarc : AuthCheck
  domain : Option (List Char)
  isKnownProvider : Bool
  hasAuthResults : Bool
  isInSpamFolder : Bool
  securityScore : Int
  riskLevel : List Char
  deriving DecidableEq, Repr

/-- `content.js` `simulateHeaderAnalysis`: with an `authResults` object
the three statuses are the normalized supplied statuses; without one
the fallback simulates them — known providers get `pass`, unknown
providers draw `Math.random()` against 0.7/0.8/0.9 thresholds.  The
page context (spam URL, danger banner) yields `isInSpamFolder`; the
score and risk come from `calculateSecurityScore` /
`determineRiskLevel`. -/
def simulateHeaderAnalysis (sender : Option (List Char))
    (authResults : Option AuthResultsIn) (urlSpam dangerBanner : Bool)
    (rand : Rand) : EmailAnalysis :=
  let domain := extractDomain sender
  let known := isKnownEmailProvider domain
  let isInSpamFolder := urlSpam || dangerBanner
  let hasAuthResults := authResults.isSome
  let spfStatus :=
    match authResults with
    | some a => normalizeAuthStatus (rawStatusInput a.spf)
    | none =>
        if !known then (if rand.r1 > 7 / 10 then lc "fail" else lc "pass")
        else lc "pass"
  let dkimStatus :=
    match authResults with
    | some a => normalizeAuthStatus (rawStatusInput a.dkim)
    | none =>
        if !known then (if rand.r2 > 8 / 10 then lc "fail" else lc "pass")
        else lc "pass"
  let dmarcStatus :=
    match authResults with
    | some a => normalizeAuthStatus (rawStatusInput a.dmarc)
    | none =>
        if !known then (if rand.r3 > 9 / 10 then lc "fail" else lc "pass")
        else lc "pass"
  let spfDetails :=
    match authResults.bind (fun a => rawDetailsOpt a.spf) with
    | some d => d
    | none => lc "SPF authentication: " ++ spfStatus
  let dkimDetails :=
    match authResults.bind (fun a => rawDetailsOpt a.dkim) with
    | some d => d
    | none => lc "DKIM signature: " ++ dkimStatus
  let dmarcDetails :=
    match authResults.bind (fun a => rawDetailsOpt a.dmarc) with
    | some d => d
    | none => lc "DMARC policy: " ++ dmarcStatus
  let securityScore := calculateSecurityScore
    ⟨spfStatus, dkimStatus, dmarcStatus, hasAuthResults, known, isInSpamFolder⟩
  { spf := ⟨spfStatus, spfDetails⟩
    dkim := ⟨dkimStatus, dkimDetails⟩
    dmarc := ⟨dmarcStatus, dmarcDetails⟩
    domain := domain
    isKnownProvider := known
    hasAuthResults := hasAuthResults
    isInSpamFolder := isInSpamFolder
    securityScore := securityScore
    riskLevel := determineRiskLevel securityScore }

end SpoofGuardContent

/-! ## SpoofGuardPopup (popup controller) -/

namespace SpoofGuardPopup

/-- The `scoreFor` helper of `computeAuthScore`: 20 per `pass`, 10 per
`softfail`/`neutral`/`present`, else 0. -/
def scoreFor (s : Option (List Char)) : Int :=
  let st := toLowerL (s.getD [])
  if st = lc "pass" then 20
  else if st = lc "softfail" ∨ st = lc "neutral" ∨ st = lc "present" then 10
  else 0

/-- `computeAuthScore(analysis)`: the per-mechanism sum clamped to
`[0, 60]`. -/
def computeAuthScore (spf dkim dmarc : Option (List Char)) : Int :=
  max 0 (min 60 (scoreFor spf + scoreFor dkim + scoreFor dmarc))

/-- `mapContentScore(label)`: Normal 40, Suspicious 20, harassment 10,
Fraudulent 0, anything else (unclassified included) 20. -/
def mapContentScore (label : Option (List Char)) : Int :=
  let l := toLowerL (label.getD [])
  if l = lc "normal" then 40
  else if l = lc "suspicious" then 20
  else if containsSub (lc "harass") l || containsSub (lc "harras") l then 10
  else if l = lc "fraudulent" then 0
  else 20

/-- The composite total of `displayEmailAnalysis`:
`Math.max(0, Math.min(100, authScore + contentScore))`. -/
def compositeScore (authScore contentScore : Int) : Int :=
  max 0 (min 100 (authScore + contentScore))

/-- `popup.js` `determineRiskLevel`. -/
def determineRiskLevel (securityScore : Int) : List Char :=
  if 80 ≤ securityScore then lc "low"
  else if 50 ≤ securityScore then lc "medium"
  else lc "high"

end SpoofGuardPopup

namespace GmailAPIClient

/-- The `[0-9a-f:.]` character class with the `i` flag. -/
def isIpChar (c : Char) : Bool :=
  c.isDigit || ('a' ≤ c && c ≤ 'f') || ('A' ≤ c && c ≤ 'F') || c = ':' || c = '.'

/-- One attempt of `scanSection` at the current position: `key` (say
`spf=`) then `[^;\s]+` then the optional `\s*\(([^)]*)\)` group.  A `(`
with no closing `)` fails only the optional group, not the match. -/
def trySectionAt (key : List Char) (s : List Char) :
    Option (List Char × Option (List Char)) :=
  match stripMarker true key s with
  | none => none
  | some rest =>
      let tok := rest.takeWhile notScWs
      if tok = [] then none
      else
        let rest2 := (rest.drop tok.length).dropWhile isWSp
        match rest2 with
        | '(' :: r4 =>
            let reason := r4.takeWhile (· ≠ ')')
            if r4.drop reason.length = [] then some (tok, none)
            else some (tok, some reason)
        | _ => some (tok, none)

/-- `authHeader.match(/key=([^;\s]+)(?:\s*\(([^)]*)\))?/i)`: groups 1
and 2 of the first match. -/
def scanSection (key : List Char) : List Char →
    Option (List Char × Option (List Char))
  | [] => none
  | c :: cs =>
      match trySectionAt key (c :: cs) with
      | some r => some r
      | none => scanSection key cs

/-- `/does not designate\s+([0-9a-f:.]+)\s+as permitted sender/i` tried
at one position (the delimiters `\s+` and the literal tails are
disjoint from the bracketed classes, so no backtracking arises). -/
def tryDesignateAt (s : List Char) : Option (List Char) :=
  match stripMarker true (lc "does not designate") s with
  | none => none
  | some r1 =>
      let ws1 := r1.takeWhile isWSp
      if ws1 = [] then none
      else
        let r2 := r1.drop ws1.length
        let ip := r2.takeWhile isIpChar
        if ip = [] then none
        else
          let r3 := r2.drop ip.length
          let ws2 := r3.takeWhile isWSp
          if ws2 = [] then none
          else
            match stripMarker true (lc "as permitted sender") (r3.drop ws2.length) with
            | some _ => some ip
            | none => none

/-- First match of the `does not designate … as permitted sender`
pattern. -/
def scanDesignate : List Char → Option (List Char)
  | [] => none
  | c :: cs =>
      match tryDesignateAt (c :: cs) with
      | some ip => some ip
      | none => scanDesignate cs

/-- `parts.filter(Boolean).join(' | ')`. -/
def joinBar (parts : List (List Char)) : List Char :=
  List.intercalate (lc " | ") (parts.filter (· ≠ []))

/-- One `{status, details, explanation}` record of the extraction
result. -/
structure AuthDetail where
  status : List Char
  details : List Char
  explanation : List Char
  deriving DecidableEq, Repr

/-- The `{spf, dkim, dmarc}` extraction result. -/
structure AuthResultsRec where
  spf : AuthDetail
  dkim : AuthDetail
  dmarc : AuthDetail
  deriving DecidableEq, Repr

/-- `gmail-api.js` `extractAuthenticationFromHeaders` (the variant with
explanations): parse the first truthy of `authentication-results` /
`arc-authentication-results` for the three `mech=` sections, auxiliary
tokens and fail explanations, then apply the `Received-SPF` and
DKIM-signature-presence fallbacks. -/
def extractAuthenticationFromHeaders
    (headers : List (List Char × List Char)) : AuthResultsRec :=
  let base : AuthResultsRec :=
    ⟨⟨lc "unknown", lc "SPF not found in headers", []⟩,
     ⟨lc "unknown", lc "DKIM not found in headers", []⟩,
     ⟨lc "unknown", lc "DMARC not found in headers", []⟩⟩
  let authHeaderOpt := jsOr (getKey headers (lc "authentication-results"))
    (getKey headers (lc "arc-authentication-results"))
  let afterHeader :=
    if truthy authHeaderOpt then
      let h := authHeaderOpt.getD []
      let smtpMailFrom := (scanTok true (lc "smtp.mailfrom=") notScWs h).getD []
      let headerI := (scanTok true (lc "header.i=") notScWs h).getD []
      let headerFrom := (scanTok true (lc "header.from=") notScWs h).getD []
      let clientIp :=
        match scanTok true (lc "client-ip=") isIpChar h with
        | some ip => ip
        | none => (scanDesignate h).getD []
      let dmarcPolicy := (scanTok true (lc "p=") Char.isAlpha h).getD []
      let dmarcSubPolicy := (scanTok true (lc "sp=") Char.isAlpha h).getD []
      let dmarcDisposition := (scanTok true (lc "dis=") Char.isAlpha h).getD []
      -- SPF section
      let spfSec := scanSection (lc "spf=") h
      let spfStatusRaw := (spfSec.map (·.1)).getD []
      let spfStatus :=
        match spfSec with
        | some (t, _) => normalizeAuthStatus t
        | none => lc "unknown"
      let spfReason :=
        match spfSec with
        | some (_, some r) => r
        | _ => []
      let spfDetails := joinBar [spfReason,
        if smtpMailFrom ≠ [] then lc "smtp.mailfrom=" ++ smtpMailFrom else [],
        if clientIp ≠ [] then lc "client-ip=" ++ clientIp else []]
      let spfExplanation :=
        if spfStatus = lc "fail" then
          if containsSubCI (lc "does not designate") spfReason ||
             containsSubCI (lc "not permitted") spfReason ||
             containsSubCI (lc "unauthorized") spfReason then
            lc "SPF failed: sending IP not authorized"
          else if containsSubCI (lc "permerror") spfStatusRaw ||
                  containsSubCI (lc "permerror") spfReason ||
                  containsSubCI (lc "syntax") spfReason then
            lc "SPF failed: SPF record syntax error"
          else if containsSubCI (lc "temperror") spfReason ||
                  containsSubCI (lc "temporary") spfReason ||
                  containsSubCI (lc "dns") spfReason then
            lc "SPF failed: temporary DNS lookup error"
          else lc "SPF failed: policy did not match sender"
        else if spfStatus = lc "softfail" then
          lc "SPF softfail: IP not fully authorized (best guess rule)"
        else if spfStatus = lc "neutral" then
          lc "SPF neutral: no applicable rule matched"
        else if spfStatus = lc "none" then
          lc "SPF none: domain does not publish SPF"
        else []
      -- DKIM section
      let dkimSec := scanSection (lc "dkim=") h
      let dkimStatus :=
        match dkimSec with
        | some (t, _) => normalizeAuthStatus t
        | none => lc "unknown"
      let dkimReason :=
        match dkimSec with
        | some (_, some r) => r
        | _ => []
      let dkimDetails := joinBar [dkimReason,
        if headerI ≠ [] then lc "header.i=" ++ headerI else []]
      let dkimExplanation :=
        if dkimStatus = lc "fail" then
          if containsSubCI (lc "bad signature") dkimReason ||
             containsSubCI (lc "verification failed") dkimReason ||
             containsSubCI (lc "body hash mismatch") dkimReason then
            lc "DKIM failed: signature verification mismatch"
          else if containsSubCI (lc "no key") dkimReason ||
                  containsSubCI (lc "key not found") dkimReason then
            lc "DKIM failed: selector key not found"
          else if containsSubCI (lc "expired") dkimReason then
            lc "DKIM failed: signature expired"
          else lc "DKIM failed: signature invalid"
        else if dkimStatus = lc "none" then
          lc "DKIM none: no DKIM signature present"
        else []
      -- DMARC section
      let dmarcSec := scanSection (lc "dmarc=") h
      let dmarcStatus :=
        match dmarcSec with
        | some (t, _) => normalizeAuthStatus t
        | none => lc "unknown"
      let dmarcReason :=
        match dmarcSec with
        | some (_, some r) => r
        | _ => []
      let dmarcDetails := joinBar [dmarcReason,
        if headerFrom ≠ [] then lc "header.from=" ++ headerFrom else [],
        if dmarcPolicy ≠ [] then lc "p=" ++ dmarcPolicy else [],
        if dmarcSubPolicy ≠ [] then lc "sp=" ++ dmarcSubPolicy else [],
        if dmarcDisposition ≠ [] then lc "dis=" ++ dmarcDisposition else []]
      -- heuristic relaxed alignment for the DMARC explanation
      let suffixDomain := fun (s : List Char) =>
        (s.reverse.takeWhile (fun c => !(c = '@' || isWSp c || c = '>'))).reverse
      let fromDomain := suffixDomain headerFrom
      let spfDomain := suffixDomain smtpMailFrom
      let dkimDomain := suffixDomain headerI
      let relaxedAligned := fun (a b : List Char) =>
        a ≠ [] && b ≠ [] && (a = b || endsWithL a ('.' :: b))
      let spfAlignedPass := spfStatus = lc "pass" && relaxedAligned spfDomain fromDomain
      let dkimAlignedPass := dkimStatus = lc "pass" && relaxedAligned dkimDomain fromDomain
      let dmarcExplanation :=
        if dmarcStatus = lc "fail" then
          if !spfAlignedPass && !dkimAlignedPass then
            lc "DMARC failed: neither SPF nor DKIM passed with domain alignment"
          else if !spfAlignedPass then
            lc "DMARC failed: SPF not aligned with From domain"
          else if !dkimAlignedPass then
            lc "DMARC failed: DKIM not aligned with From domain"
          else lc "DMARC failed: policy enforcement triggered"
        else if dmarcStatus = lc "none" then
          lc "DMARC none: domain does not publish DMARC policy"
        else []
      AuthResultsRec.mk
        ⟨spfStatus, spfDetails, spfExplanation⟩
        ⟨dkimStatus, dkimDetails, dkimExplanation⟩
        ⟨dmarcStatus, dmarcDetails, dmarcExplanation⟩
    else base
  -- Received-SPF fallback
  let afterRspf :=
    if afterHeader.spf.status = lc "unknown" ∧
       truthy (getKey headers (lc "received-spf")) then
      let spfHeader := (getKey headers (lc "received-spf")).getD []
      if containsSubCI (lc "pass") spfHeader then
        { afterHeader with spf := ⟨lc "pass", lc "Received-SPF shows pass",
            lc "SPF passed per Received-SPF"⟩ }
      else if containsSubCI (lc "fail") spfHeader then
        let ip := (scanTok true (lc "client-ip=") isIpChar spfHeader).getD []
        { afterHeader with spf := ⟨lc "fail",
            (if ip ≠ [] then lc "client-ip=" ++ ip else lc "Received-SPF shows fail"),
            lc "SPF failed: sending IP not authorized"⟩ }
      else afterHeader
    else afterHeader
  -- DKIM signature-presence fallback
  if afterRspf.dkim.status = lc "unknown" ∧
     (truthy (getKey headers (lc "dkim-signature")) ∨
      truthy (getKey headers (lc "x-google-dkim-signature"))) then
    { afterRspf with dkim := ⟨lc "pass", lc "DKIM signature present",
        lc "DKIM passed: signature verified"⟩ }
  else afterRspf

end GmailAPIClient

/-! ## Helper lemmas -/

/-- Bounds of the background per-mechanism points for a nonnegative
weight. -/
theorem bgStatusPoints_bounds (w : ℚ) (status : List Char) (hw : 0 ≤ w) :
    0 ≤ SpoofGuardBackground.bgStatusPoints w status ∧
      SpoofGuardBackground.bgStatusPoints w status ≤ w := by
  unfold SpoofGuardBackground.bgStatusPoints
  split_ifs <;> constructor <;> nlinarith

/-- `jsRound` of a nonnegative rational is nonnegative. -/
theorem jsRound_nonneg {q : ℚ} (h : 0 ≤ q) : 0 ≤ jsRound q := by
  unfold jsRound
  exact Int.le_floor.mpr (by push_cast; linarith)

/-- `jsRound` of a rational at most 100 is at most 100. -/
theorem jsRound_le_100 {q : ℚ} (h : q ≤ 100) : jsRound q ≤ 100 := by
  unfold jsRound
  have h2 : ⌊q + 1 / 2⌋ < 101 := Int.floor_lt.mpr (by push_cast; linarith)
  omega

/-! ## The claims -/

/-- C2 (counterexample): the claim "every raw status containing `fail`
normalizes to `fail`" is false on the code: the content script's
normalizer maps `xfail` to `unknown` (exact-token matching), and the
Gmail API client's normalizer maps `passfail` to `pass` (the `pass`
substring test runs first). -/
theorem c2_counterexample :
    SpoofGuardContent.normalizeAuthStatus (lc "xfail") ≠ lc "fail" ∧
      GmailAPIClient.normalizeAuthStatus (lc "passfail") ≠ lc "fail" := by
  constructor <;> decide

/-- C2 (amended): the Gmail API client's normalizer returns `fail` for
every raw status whose lowercased trimmed form contains `fail` but not
`pass`; the content script's normalizer returns `fail` exactly on the
tokens `fail`, `failed`, `failure`, `error` and `suspicious`
(case-insensitive, trimmed) — every other input normalizes to something
else. -/
theorem c2_fail_normalization :
    (∀ s : List Char,
        containsSub (lc "fail") (trimL (toLowerL s)) = true →
        containsSub (lc "pass") (trimL (toLowerL s)) = false →
        GmailAPIClient.normalizeAuthStatus s = lc "fail") ∧
    (∀ s : List Char,
        SpoofGuardContent.normalizeAuthStatus s = lc "fail" ↔
          trimL (toLowerL s) ∈ [lc "fail", lc "failed", lc "failure",
            lc "error", lc "suspicious"]) := by
  constructor
  · intro s h1 h2
    simp [GmailAPIClient.normalizeAuthStatus, h1, h2]
  · intro s
    constructor
    · intro h
      by_cases hs : s = []
      · rw [hs] at h
        exact absurd h (by decide)
      · unfold SpoofGuardContent.normalizeAuthStatus at h
        rw [if_neg hs] at h
        simp only [lc] at h ⊢
        split_ifs at h with h1 h2 h3 h4 h5 h6
        · exact absurd h (by decide)
        · rcases h2 with h2 | h2 | h2 | h2 <;> simp [h2]
        · exact absurd h (by decide)
        · rw [h]
          simp
        · simp [h5]
        · exact absurd h (by decide)
        · exact absurd h (by decide)
    · intro hmem
      have hs : s ≠ [] := by
        intro h
        subst h
        simp [trimL, trimLeftL, trimRightL, toLowerL] at hmem
        rcases hmem with h | h | h | h | h <;> exact absurd h.symm (by decide)
      simp only [List.mem_cons, List.not_mem_nil, or_false] at hmem
      rcases hmem with h | h | h | h | h <;>
        simp [SpoofGuardContent.normalizeAuthStatus, hs, h, lc]

/-- C2 (witness): the amended theorem at `softfail` (Gmail client) and
` FAILED ` (content script). -/
theorem c2_fail_normalization_witness :
    GmailAPIClient.normalizeAuthStatus (lc "softfail") = lc "fail" ∧
      SpoofGuardContent.normalizeAuthStatus (lc " FAILED ") = lc "fail" :=
  ⟨c2_fail_normalization.1 (lc "softfail") (by decide) (by decide),
   (c2_fail_normalization.2 (lc " FAILED ")).mpr (by decide)⟩

/-- C10 (counterexample): the two normalizers are not equivalent: on
`softfail` the content script returns `softfail` while the Gmail API
client returns `fail`. -/
theorem c10_counterexample :
    SpoofGuardContent.normalizeAuthStatus (lc "softfail") ≠
      GmailAPIClient.normalizeAuthStatus (lc "softfail") := by
  decide

/-- C10 (amended): the two normalizers agree on the exact canonical
tokens `pass`, `fail`, `none`, `neutral`, `temperror` and `permerror`,
but disagree on exactly the inputs the claim lists: `softfail`
(content `softfail`, Gmail `fail`), `suspicious` (content `fail`,
Gmail `unknown`), `present` and `found` (content `present`, Gmail
`unknown`). -/
theorem c10_normalizer_comparison :
    (SpoofGuardContent.normalizeAuthStatus (lc "pass") =
       GmailAPIClient.normalizeAuthStatus (lc "pass") ∧
     SpoofGuardContent.normalizeAuthStatus (lc "fail") =
       GmailAPIClient.normalizeAuthStatus (lc "fail") ∧
     SpoofGuardContent.normalizeAuthStatus (lc "none") =
       GmailAPIClient.normalizeAuthStatus (lc "none") ∧
     SpoofGuardContent.normalizeAuthStatus (lc "neutral") =
       GmailAPIClient.normalizeAuthStatus (lc "neutral") ∧
     SpoofGuardContent.normalizeAuthStatus (lc "temperror") =
       GmailAPIClient.normalizeAuthStatus (lc "temperror") ∧
     SpoofGuardContent.normalizeAuthStatus (lc "permerror") =
       GmailAPIClient.normalizeAuthStatus (lc "permerror")) ∧
    (SpoofGuardContent.normalizeAuthStatus (lc "softfail") = lc "softfail" ∧
     GmailAPIClient.normalizeAuthStatus (lc "softfail") = lc "fail") ∧
    (SpoofGuardContent.normalizeAuthStatus (lc "suspicious") = lc "fail" ∧
     GmailAPIClient.normalizeAuthStatus (lc "suspicious") = lc "unknown") ∧
    (SpoofGuardContent.normalizeAuthStatus (lc "present") = lc "present" ∧
     GmailAPIClient.normalizeAuthStatus (lc "present") = lc "unknown") ∧
    (SpoofGuardContent.normalizeAuthStatus (lc "found") = lc "present" ∧
     GmailAPIClient.normalizeAuthStatus (lc "found") = lc "unknown") := by
  decide

/-- C6: the composite auth+content scoring mode.  All-`pass` checks and
`Normal` classification give authScore 60, contentScore 40, total 100,
risk `low`; all-`fail` checks and `Fraudulent` give 0, 0, 0, `high`. -/
theorem c6_composite_scoring :
    (SpoofGuardPopup.computeAuthScore (some (lc "pass")) (some (lc "pass"))
        (some (lc "pass")) = 60 ∧
     SpoofGuardPopup.mapContentScore (some (lc "Normal")) = 40 ∧
     SpoofGuardPopup.compositeScore 60 40 = 100 ∧
     SpoofGuardPopup.determineRiskLevel 100 = lc "low") ∧
    (SpoofGuardPopup.computeAuthScore (some (lc "fail")) (some (lc "fail"))
        (some (lc "fail")) = 0 ∧
     SpoofGuardPopup.mapContentScore (some (lc "Fraudulent")) = 0 ∧
     SpoofGuardPopup.compositeScore 0 0 = 0 ∧
     SpoofGuardPopup.determineRiskLevel 0 = lc "high") := by
  decide

/-- C3: parsing a header map whose `authentication-results` value is
the single line
`spf=pass (sender SPF authorized) smtp.mailfrom=foo.com; dkim=fail; dmarc=pass`
yields `spf.status = pass`, `dkim.status = fail`, `dmarc.status = pass`,
and an `spf.details` containing `smtp.mailfrom=foo.com`. -/
theorem c3_round_trip :
    (GmailAPIClient.extractAuthenticationFromHeaders
        [(lc "authentication-results",
          lc "spf=pass (sender SPF authorized) smtp.mailfrom=foo.com; dkim=fail; dmarc=pass")]).spf.status
      = lc "pass" ∧
    (GmailAPIClient.extractAuthenticationFromHeaders
        [(lc "authentication-results",
          lc "spf=pass (sender SPF authorized) smtp.mailfrom=foo.com; dkim=fail; dmarc=pass")]).dkim.status
      = lc "fail" ∧
    (GmailAPIClient.extractAuthenticationFromHeaders
        [(lc "authentication-results",
          lc "spf=pass (sender SPF authorized) smtp.mailfrom=foo.com; dkim=fail; dmarc=pass")]).dmarc.status
      = lc "pass" ∧
    containsSub (lc "smtp.mailfrom=foo.com")
      (GmailAPIClient.extractAuthenticationFromHeaders
        [(lc "authentication-results",
          lc "spf=pass (sender SPF authorized) smtp.mailfrom=foo.com; dkim=fail; dmarc=pass")]).spf.details
      = true := by
  decide

/-- C5: whenever `performDNSLookup` actually fetches (no fresh cache
entry) and the fetch throws, returns non-OK or yields an unparseable
body, it returns the empty record list instead of an error; and a
successful lookup of a domain publishing no records returns the same
empty list, so callers cannot tell the two apart. -/
theorem c5_dns_failure_empty :
    (∀ (cache : List (List Char × SpoofGuardBackground.DNSCacheEntry))
        (cacheTimeout now : Int) (domain recordType : List Char)
        (outcome : SpoofGuardBackground.FetchOutcome),
      SpoofGuardBackground.cacheHitFresh cache cacheTimeout now domain recordType
          = false →
      outcome.isFailure = true →
      (SpoofGuardBackground.performDNSLookup cache cacheTimeout now domain
          recordType outcome).1 = []) ∧
    (∀ (cache : List (List Char × SpoofGuardBackground.DNSCacheEntry))
        (cacheTimeout now : Int) (domain recordType : List Char),
      SpoofGuardBackground.cacheHitFresh cache cacheTimeout now domain recordType
          = false →
      (SpoofGuardBackground.performDNSLookup cache cacheTimeout now domain
          recordType (.ok (some []))).1 = []) := by
  constructor
  · intro cache cacheTimeout now domain recordType outcome hmiss hfail
    unfold SpoofGuardBackground.performDNSLookup
    unfold SpoofGuardBackground.cacheHitFresh at hmiss
    cases hget : SpoofGuardBackground.cacheGet cache (domain ++ ':' :: recordType) with
    | none => cases outcome <;> simp_all [SpoofGuardBackground.FetchOutcome.isFailure]
    | some e =>
        rw [hget] at hmiss
        simp only [decide_eq_false_iff_not] at hmiss
        cases outcome <;>
          simp_all [SpoofGuardBackground.FetchOutcome.isFailure, hmiss] <;>
          rw [if_neg (by omega)]
  · intro cache cacheTimeout now domain recordType hmiss
    unfold SpoofGuardBackground.performDNSLookup
    unfold SpoofGuardBackground.cacheHitFresh at hmiss
    cases hget : SpoofGuardBackground.cacheGet cache (domain ++ ':' :: recordType) with
    | none => simp_all
    | some e =>
        rw [hget] at hmiss
        simp only [decide_eq_false_iff_not] at hmiss
        simp_all [hmiss]
        rw [if_neg (by omega)]

/-- C5 (witness): an empty cache with a network error, and with an
empty answer set. -/
theorem c5_dns_failure_empty_witness :
    (SpoofGuardBackground.performDNSLookup [] 300000 0 (lc "example.com")
        (lc "TXT") .fetchError).1 = [] ∧
    (SpoofGuardBackground.performDNSLookup [] 300000 0 (lc "example.com")
        (lc "TXT") (.ok (some []))).1 = [] :=
  ⟨c5_dns_failure_empty.1 [] 300000 0 (lc "example.com") (lc "TXT")
      .fetchError (by decide) (by decide),
   c5_dns_failure_empty.2 [] 300000 0 (lc "example.com") (lc "TXT") (by decide)⟩

/-- C8: the spam/danger override substitutes the synthetic `suspicious`
triple only when no extraction produced results or every check is still
`unknown`; any triple with at least one non-`unknown` status passes
through untouched, whatever the spam-folder or danger-banner flags
say. -/
theorem c8_spam_override_tiebreaker :
    (∀ (r : SpoofGuardContent.AuthTriple) (urlSpam dangerBanner : Bool),
      SpoofGuardContent.allUnknown r = false →
      SpoofGuardContent.applySpamOverride (some r) urlSpam dangerBanner = r) ∧
    (∀ (r : SpoofGuardContent.AuthTriple) (urlSpam dangerBanner : Bool),
      SpoofGuardContent.allUnknown r = true →
      (urlSpam || dangerBanner) = true →
      SpoofGuardContent.applySpamOverride (some r) urlSpam dangerBanner =
        SpoofGuardContent.suspiciousTriple) ∧
    (∀ urlSpam dangerBanner : Bool,
      (urlSpam || dangerBanner) = true →
      SpoofGuardContent.applySpamOverride none urlSpam dangerBanner =
        SpoofGuardContent.suspiciousTriple) := by
  refine ⟨?_, ?_, ?_⟩
  · intro r urlSpam dangerBanner h
    simp [SpoofGuardContent.applySpamOverride, h]
  · intro r urlSpam dangerBanner h hspam
    simp [SpoofGuardContent.applySpamOverride, h, hspam]
  · intro urlSpam dangerBanner hspam
    simp [SpoofGuardContent.applySpamOverride, hspam]

/-- C8 (witness): a triple with concrete SPF evidence survives the
override in a spam context; an all-`unknown` triple is replaced. -/
theorem c8_spam_override_tiebreaker_witness :
    SpoofGuardContent.applySpamOverride
        (some ⟨⟨lc "pass", lc "SPF pass"⟩, ⟨lc "unknown", []⟩,
          ⟨lc "unknown", []⟩⟩) true true =
      ⟨⟨lc "pass", lc "SPF pass"⟩, ⟨lc "unknown", []⟩, ⟨lc "unknown", []⟩⟩ ∧
    SpoofGuardContent.applySpamOverride
        (some ⟨⟨lc "unknown", []⟩, ⟨lc "unknown", []⟩, ⟨lc "unknown", []⟩⟩)
        true false = SpoofGuardContent.suspiciousTriple :=
  ⟨c8_spam_override_tiebreaker.1 _ true true (by decide),
   c8_spam_override_tiebreaker.2.1 _ true false (by decide) (by decide)⟩

/-- C9 (counterexample): the analysis is not a function of the evidence
inputs alone: with no `authResults` object and an unknown sender
domain, two runs over identical evidence (same sender, no auth results,
same page context) differing only in the `Math.random()` draws produce
different analyses. -/
theorem c9_counterexample :
    SpoofGuardContent.simulateHeaderAnalysis
        (some (lc "Mallory <mallory@evil.com>")) none false false
        ⟨4 / 5, 0, 0⟩ ≠
      SpoofGuardContent.simulateHeaderAnalysis
        (some (lc "Mallory <mallory@evil.com>")) none false false
        ⟨1 / 2, 0, 0⟩ := by
  have hk : SpoofGuardContent.isKnownEmailProvider
      (SpoofGuardContent.extractDomain (some (lc "Mallory <mallory@evil.com>")))
        = false := by decide
  have h1 : (SpoofGuardContent.simulateHeaderAnalysis
      (some (lc "Mallory <mallory@evil.com>")) none false false
      ⟨4 / 5, 0, 0⟩).spf.status = lc "fail" := by
    simp only [SpoofGuardContent.simulateHeaderAnalysis, hk]
    norm_num
  have h2 : (SpoofGuardContent.simulateHeaderAnalysis
      (some (lc "Mallory <mallory@evil.com>")) none false false
      ⟨1 / 2, 0, 0⟩).spf.status = lc "pass" := by
    simp only [SpoofGuardContent.simulateHeaderAnalysis, hk]
    norm_num
  intro h
  rw [h, h2] at h1
  exact absurd h1 (by decide)

/-- C9 (amended): on the non-simulated path — whenever an `authResults`
object is present — the resolver is deterministic: two runs over
identical evidence inputs agree, whatever the random draws; the random
fallback path (no `authResults`) is excluded. -/
theorem c9_determinism_with_evidence :
    ∀ (sender : Option (List Char)) (a : SpoofGuardContent.AuthResultsIn)
      (urlSpam dangerBanner : Bool) (r r' : SpoofGuardContent.Rand),
      SpoofGuardContent.simulateHeaderAnalysis sender (some a) urlSpam
          dangerBanner r =
        SpoofGuardContent.simulateHeaderAnalysis sender (some a) urlSpam
          dangerBanner r' := by
  intro sender a urlSpam dangerBanner r r'
  rfl

/-- `statusPoints` on `fail` is zero. -/
theorem statusPoints_fail (w : ℚ) :
    SpoofGuardContent.statusPoints w (lc "fail") = 0 := by
  simp [SpoofGuardContent.statusPoints, lc]

/-- C7: both authentication-only scores are integers in `[0, 100]` for
every input (arbitrary status strings included); in particular the
content script's score with zero mechanism points, the −20
unknown-provider penalty and the −30 spam penalty floors at 0. -/
theorem c7_score_bounds :
    (∀ a : SpoofGuardContent.ScoreInput,
      0 ≤ SpoofGuardContent.calculateSecurityScore a ∧
        SpoofGuardContent.calculateSecurityScore a ≤ 100) ∧
    (∀ spfStatus dkimStatus dmarcStatus : List Char,
      0 ≤ SpoofGuardBackground.calculateSecurityScore spfStatus dkimStatus
            dmarcStatus ∧
        SpoofGuardBackground.calculateSecurityScore spfStatus dkimStatus
            dmarcStatus ≤ 100) ∧
    SpoofGuardContent.calculateSecurityScore
        ⟨lc "fail", lc "fail", lc "fail", false, false, true⟩ = 0 := by
  refine ⟨?_, ?_, ?_⟩
  · intro a
    unfold SpoofGuardContent.calculateSecurityScore
    exact ⟨le_max_left _ _, max_le (by norm_num) (min_le_left _ _)⟩
  · intro spfStatus dkimStatus dmarcStatus
    unfold SpoofGuardBackground.calculateSecurityScore
    obtain ⟨h1a, h1b⟩ := bgStatusPoints_bounds 30 spfStatus (by norm_num)
    obtain ⟨h2a, h2b⟩ := bgStatusPoints_bounds 35 dkimStatus (by norm_num)
    obtain ⟨h3a, h3b⟩ := bgStatusPoints_bounds 35 dmarcStatus (by norm_num)
    exact ⟨jsRound_nonneg (by linarith), jsRound_le_100 (by linarith)⟩
  · norm_num [SpoofGuardContent.calculateSecurityScore, statusPoints_fail,
      jsRound]

/-- C1 (counterexample): with an explicit `spf=pass` token in the
Authentication-Results header but no `v=spf1` TXT record,
`validateSPF` returns `none`, not the explicit token — the structural
presence check runs before the explicit-token tier, contradicting the
claim's "regardless of whether a v=spf1 TXT record is present". -/
theorem c1_counterexample :
    scanTok true (lc "spf=") notScWs (lc "spf=pass") = some (lc "pass") ∧
      (SpoofGuardBackground.validateSPF
          [(lc "authentication-results", lc "spf=pass")] []).status =
        lc "none" := by
  decide

/-- C1 (amended): the explicit Authentication-Results token decides the
status only when the mechanism's structural artifact exists: with a
`v=spf1` record (SPF), a truthy `dkim-signature` header (DKIM) or a
`v=DMARC1` record (DMARC) present, an explicit `spf=`/`dkim=`/`dmarc=`
token yields the lowercased token as status; with the artifact absent,
the status is `none` whatever tokens the headers carry. -/
theorem c1_explicit_token_tiering :
    (∀ (headers : List (List Char × List Char)) (spfRecords : List (List Char))
        (rec tok : List Char),
      SpoofGuardBackground.findSpfRecord spfRecords = some rec →
      scanTok true (lc "spf=") notScWs
          ((getKey headers (lc "authentication-results")).getD []) = some tok →
      (SpoofGuardBackground.validateSPF headers spfRecords).status =
        toLowerL tok) ∧
    (∀ (headers : List (List Char × List Char)) (spfRecords : List (List Char)),
      SpoofGuardBackground.findSpfRecord spfRecords = none →
      (SpoofGuardBackground.validateSPF headers spfRecords).status = lc "none") ∧
    (∀ (headers : List (List Char × List Char)) (tok : List Char),
      truthy (getKey headers (lc "dkim-signature")) = true →
      scanTok true (lc "dkim=") notScWs
          ((getKey headers (lc "authentication-results")).getD []) = some tok →
      (SpoofGuardBackground.validateDKIM headers).status = toLowerL tok) ∧
    (∀ headers : List (List Char × List Char),
      truthy (getKey headers (lc "dkim-signature")) = false →
      (SpoofGuardBackground.validateDKIM headers).status = lc "none") ∧
    (∀ (headers : List (List Char × List Char))
        (dmarcRecords : List (List Char)) (rec tok : List Char),
      SpoofGuardBackground.findDmarcRecord dmarcRecords = some rec →
      scanTok true (lc "dmarc=") notScWs
          ((getKey headers (lc "authentication-results")).getD []) = some tok →
      (SpoofGuardBackground.validateDMARC headers dmarcRecords).status =
        toLowerL tok) ∧
    (∀ (headers : List (List Char × List Char))
        (dmarcRecords : List (List Char)),
      SpoofGuardBackground.findDmarcRecord dmarcRecords = none →
      (SpoofGuardBackground.validateDMARC headers dmarcRecords).status =
        lc "none") := by
  refine ⟨?_, ?_, ?_, ?_, ?_, ?_⟩
  · intro headers spfRecords rec tok h1 h2
    simp [SpoofGuardBackground.validateSPF, h1, h2]
  · intro headers spfRecords h1
    simp [SpoofGuardBackground.validateSPF, h1]
  · intro headers tok h1 h2
    simp [SpoofGuardBackground.validateDKIM, h1, h2]
  · intro headers h1
    simp [SpoofGuardBackground.validateDKIM, h1]
  · intro headers dmarcRecords rec tok h1 h2
    simp [SpoofGuardBackground.validateDMARC, h1, h2]
  · intro headers dmarcRecords h1
    simp [SpoofGuardBackground.validateDMARC, h1]

/-- C1 (witness): a header map with `spf=Pass`, `dkim=fail` and
`dmarc=pass` tokens against present artifacts, and the three absent
cases. -/
theorem c1_explicit_token_tiering_witness :
    ((SpoofGuardBackground.validateSPF
        [(lc "authentication-results", lc "spf=Pass; dkim=fail; dmarc=pass")]
        [lc "v=spf1 include:x -all"]).status = toLowerL (lc "Pass") ∧
     (SpoofGuardBackground.validateSPF
        [(lc "authentication-results", lc "spf=Pass; dkim=fail; dmarc=pass")]
        []).status = lc "none") ∧
    ((SpoofGuardBackground.validateDKIM
        [(lc "authentication-results", lc "spf=Pass; dkim=fail; dmarc=pass"),
         (lc "dkim-signature", lc "v=1; a=rsa-sha256")]).status =
          toLowerL (lc "fail") ∧
     (SpoofGuardBackground.validateDKIM
        [(lc "authentication-results", lc "spf=Pass; dkim=fail; dmarc=pass")]).status =
          lc "none") ∧
    ((SpoofGuardBackground.validateDMARC
        [(lc "authentication-results", lc "spf=Pass; dkim=fail; dmarc=pass")]
        [lc "v=DMARC1; p=reject"]).status = toLowerL (lc "pass") ∧
     (SpoofGuardBackground.validateDMARC
        [(lc "authentication-results", lc "spf=Pass; dkim=fail; dmarc=pass")]
        []).status = lc "none") :=
  ⟨⟨c1_explicit_token_tiering.1 _ _ (lc "v=spf1 include:x -all") (lc "Pass")
      (by decide) (by decide),
    c1_explicit_token_tiering.2.1 _ _ (by decide)⟩,
   ⟨c1_explicit_token_tiering.2.2.1 _ (lc "fail") (by decide) (by decide),
    c1_explicit_token_tiering.2.2.2.1 _ (by decide)⟩,
   ⟨c1_explicit_token_tiering.2.2.2.2.1 _ _ (lc "v=DMARC1; p=reject")
      (lc "pass") (by decide) (by decide),
    c1_explicit_token_tiering.2.2.2.2.2 _ _ (by decide)⟩⟩

/-- `splitNl` of a newline-free string is that single line. -/
theorem splitNl_of_not_mem {l : List Char} (h : '\n' ∉ l) :
    SpoofGuardBackground.splitNl l = [l] := by
  induction l with
  | nil => rfl
  | cons c cs ih =>
      have hc : ¬ c = '\n' := fun hc => h (hc ▸ List.mem_cons_self c cs)
      have hcs : '\n' ∉ cs := fun hm => h (List.mem_cons_of_mem c hm)
      simp [SpoofGuardBackground.splitNl, hc, ih hcs]

/-- `splitNl` peels a newline-free first line off. -/
theorem splitNl_append (a b : List Char) (ha : '\n' ∉ a) :
    SpoofGuardBackground.splitNl (a ++ '\n' :: b) =
      a :: SpoofGuardBackground.splitNl b := by
  induction a with
  | nil => simp [SpoofGuardBackground.splitNl]
  | cons c cs ih =>
      have hc : ¬ c = '\n' := fun hc => ha (hc ▸ List.mem_cons_self c cs)
      have hcs : '\n' ∉ cs := fun hm => ha (List.mem_cons_of_mem c hm)
      simp [SpoofGuardBackground.splitNl, hc, ih hcs]

/-- The head surviving a `dropWhile` fails the predicate. -/
theorem dropWhile_head_false {p : Char → Bool} {l : List Char} {c : Char}
    {t : List Char} (h : l.dropWhile p = c :: t) : p c = false := by
  induction l with
  | nil => simp at h
  | cons a l ih =>
      by_cases ha : p a = true
      · rw [List.dropWhile_cons, if_pos ha] at h
        exact ih h
      · rw [List.dropWhile_cons, if_neg ha] at h
        injection h with h1 _
        subst h1
        simpa using ha

/-- Left trim keeps a list whose head is not whitespace. -/
theorem trimLeftL_cons_of_not_ws {c : Char} (t : List Char)
    (h : isWSp c = false) : trimLeftL (c :: t) = c :: t := by
  simp [trimLeftL, List.dropWhile_cons, h]

/-- Left trim swallows an all-whitespace prefix. -/
theorem trimLeftL_ws_append {w : List Char} (v : List Char)
    (hw : ∀ x ∈ w, isWSp x = true) : trimLeftL (w ++ v) = trimLeftL v := by
  induction w with
  | nil => rfl
  | cons c cs ih =>
      have hc := hw c (List.mem_cons_self c cs)
      have := ih (fun x hx => hw x (List.mem_cons_of_mem c hx))
      simp only [List.cons_append, trimLeftL, List.dropWhile_cons, hc,
        if_pos] at this ⊢
      exact this

/-- Right trim distributes over a cons with non-whitespace head. -/
theorem trimRightL_cons_of_not_ws {c : Char} (t : List Char)
    (h : isWSp c = false) : trimRightL (c :: t) = c :: trimRightL t := by
  unfold trimRightL
  rw [List.reverse_cons, List.dropWhile_append]
  by_cases he : (t.reverse.dropWhile isWSp).isEmpty
  · rw [if_pos he]
    rw [List.isEmpty_iff] at he
    rw [he]
    simp [List.dropWhile_cons, h]
  · rw [if_neg he]
    simp

/-- Right trim leaves a prefix alone when the suffix keeps a
non-whitespace tail. -/
theorem trimRightL_append (a b : List Char) (hb : trimRightL b ≠ []) :
    trimRightL (a ++ b) = a ++ trimRightL b := by
  unfold trimRightL at *
  rw [List.reverse_append, List.dropWhile_append]
  have hne : ¬ (b.reverse.dropWhile isWSp).isEmpty := by
    intro h
    rw [List.isEmpty_iff] at h
    exact hb (by rw [h]; rfl)
  rw [if_neg hne, List.reverse_append, List.reverse_reverse]

/-- Right trim is idempotent. -/
theorem trimRightL_idem (l : List Char) :
    trimRightL (trimRightL l) = trimRightL l := by
  unfold trimRightL
  rw [List.reverse_reverse, List.dropWhile_idempotent]

/-- `trim` of a list with non-whitespace head. -/
theorem trimL_cons_of_not_ws {c : Char} (t : List Char)
    (h : isWSp c = false) : trimL (c :: t) = c :: trimRightL t := by
  unfold trimL
  rw [trimLeftL_cons_of_not_ws t h, trimRightL_cons_of_not_ws t h]

/-- `trim` swallows an all-whitespace prefix. -/
theorem trimL_ws_append {w : List Char} (v : List Char)
    (hw : ∀ x ∈ w, isWSp x = true) : trimL (w ++ v) = trimL v := by
  unfold trimL
  rw [trimLeftL_ws_append v hw]

/-- The head of a nonempty trimmed list is not whitespace. -/
theorem trimL_head_not_ws {v : List Char} {c : Char} {t : List Char}
    (h : trimL v = c :: t) : isWSp c = false := by
  unfold trimL at h
  cases htl : trimLeftL v with
  | nil => rw [htl] at h; exact absurd h (by simp [trimRightL])
  | cons a as =>
      have ha : isWSp a = false := dropWhile_head_false htl
      rw [htl, trimRightL_cons_of_not_ws as ha] at h
      injection h with h1 _
      subst h1
      exact ha

/-- Joining two nonempty trimmed fragments with a single space is
already trimmed. -/
theorem trimL_append_trimmed (x y : List Char) (hx : trimL x ≠ [])
    (hy : trimL y ≠ []) :
    trimL (trimL x ++ ' ' :: trimL y) = trimL x ++ ' ' :: trimL y := by
  obtain ⟨c, t, hct⟩ : ∃ c t, trimL x = c :: t := by
    cases h : trimL x with
    | nil => exact absurd h hx
    | cons c t => exact ⟨c, t, rfl⟩
  have hc := trimL_head_not_ws hct
  have hBr : trimRightL (trimL y) = trimL y := trimRightL_idem _
  show trimRightL (trimLeftL (trimL x ++ ' ' :: trimL y)) = _
  rw [hct, List.cons_append, trimLeftL_cons_of_not_ws _ hc, ← List.cons_append,
    show (c :: t) ++ ' ' :: trimL y = ((c :: t) ++ [' ']) ++ trimL y by simp,
    trimRightL_append _ _ (by rw [hBr]; exact hy), hBr]

/-- Index of the first `p`-character after a `p`-free prefix. -/
theorem firstIdx_append_cons {p : Char → Bool} (a : List Char) (c : Char)
    (b : List Char) (ha : ∀ x ∈ a, p x = false) (hc : p c = true) :
    firstIdx p (a ++ c :: b) = some a.length := by
  induction a with
  | nil => simp [firstIdx, hc]
  | cons d ds ih =>
      have hd := ha d (List.mem_cons_self d ds)
      have := ih (fun x hx => ha x (List.mem_cons_of_mem d hx))
      simp [firstIdx, hd, this]

/-- C4: folded-header continuation.  For every raw header text of the
form `name ++ ":" ++ v1 ++ "\n" ++ ws ++ v2` — one header line whose
name starts with a non-whitespace character and contains no colon,
followed by a continuation line starting with whitespace — the parser
treats the indented line as a continuation of the previous header, not
a new field: the result is the single binding of the lowercased trimmed
name to the first fragment joined to the trimmed second fragment by a
single space. -/
theorem c4_folded_header_continuation
    (c₀ : Char) (nr v1 ws v2 : List Char)
    (hc₀ : isWSp c₀ = false)
    (hcolon : ':' ∉ c₀ :: nr)
    (hnl_name : '\n' ∉ c₀ :: nr)
    (hnl_v1 : '\n' ∉ v1)
    (hws_all : ∀ x ∈ ws, isWSp x = true)
    (hws_ne : ws ≠ [])
    (hnl_ws : '\n' ∉ ws)
    (hnl_v2 : '\n' ∉ v2)
    (hv1 : trimL v1 ≠ [])
    (hv2 : trimL v2 ≠ []) :
    SpoofGuardBackground.parseEmailHeaders
        (((c₀ :: nr) ++ ':' :: v1) ++ '\n' :: (ws ++ v2)) =
      [(toLowerL (trimL (c₀ :: nr)), trimL v1 ++ ' ' :: trimL v2)] := by
  have hnl_line1 : '\n' ∉ (c₀ :: nr) ++ ':' :: v1 := by
    intro h
    rcases List.mem_append.mp h with h | h
    · exact hnl_name h
    · rcases List.mem_cons.mp h with h | h
      · exact absurd h (by decide)
      · exact hnl_v1 h
  have hnl_line2 : '\n' ∉ ws ++ v2 := by
    intro h
    rcases List.mem_append.mp h with h | h
    · exact hnl_ws h
    · exact hnl_v2 h
  have hidx : firstIdx (· = ':') ((c₀ :: nr) ++ ':' :: v1) =
      some (c₀ :: nr).length :=
    firstIdx_append_cons _ _ _
      (fun x hx => by
        simp only [decide_eq_false_iff_not]
        exact fun hxc => hcolon (hxc ▸ hx))
      (by simp)
  have htake : ((c₀ :: nr) ++ ':' :: v1).take (c₀ :: nr).length = c₀ :: nr :=
    List.take_left _ _
  have hdrop : ((c₀ :: nr) ++ ':' :: v1).drop ((c₀ :: nr).length + 1) = v1 := by
    rw [show (c₀ :: nr) ++ ':' :: v1 = ((c₀ :: nr) ++ [':']) ++ v1 by simp,
      show (c₀ :: nr).length + 1 = ((c₀ :: nr) ++ [':']).length by simp]
    exact List.drop_left _ _
  have hstep1 : SpoofGuardBackground.parseLine ⟨[], [], []⟩
      ((c₀ :: nr) ++ ':' :: v1) =
      ⟨trimL (c₀ :: nr), trimL v1, []⟩ := by
    unfold SpoofGuardBackground.parseLine
    rw [if_neg (by
      rintro ⟨-, h2⟩
      rw [show (((c₀ :: nr) ++ ':' :: v1).headD ' ') = c₀ from rfl, hc₀] at h2
      exact Bool.false_ne_true h2)]
    rw [hidx]
    simp [htake, hdrop]
  obtain ⟨w, ws', rfl⟩ : ∃ w ws', ws = w :: ws' := by
    cases ws with
    | nil => exact absurd rfl hws_ne
    | cons w ws' => exact ⟨w, ws', rfl⟩
  have hw : isWSp w = true := hws_all w (List.mem_cons_self w ws')
  have hstep2 : SpoofGuardBackground.parseLine
      ⟨trimL (c₀ :: nr), trimL v1, []⟩ ((w :: ws') ++ v2) =
      ⟨trimL (c₀ :: nr), trimL v1 ++ ' ' :: trimL v2, []⟩ := by
    unfold SpoofGuardBackground.parseLine
    rw [if_pos ⟨by simp, by
      rw [show (((w :: ws') ++ v2).headD ' ') = w from rfl, hw]⟩]
    rw [show trimL ((w :: ws') ++ v2) = trimL v2 from trimL_ws_append v2 hws_all]
  have hne : trimL (c₀ :: nr) ≠ [] := by
    rw [trimL_cons_of_not_ws nr hc₀]
    exact List.cons_ne_nil _ _
  unfold SpoofGuardBackground.parseEmailHeaders
  rw [splitNl_append _ _ hnl_line1, splitNl_of_not_mem hnl_line2]
  rw [List.foldl_cons, List.foldl_cons, List.foldl_nil, hstep1, hstep2]
  rw [if_pos hne]
  rw [show trimL (trimL v1 ++ ' ' :: trimL v2) = trimL v1 ++ ' ' :: trimL v2
    from trimL_append_trimmed v1 v2 hv1 hv2]
  rfl

/-- C4 (witness): a concrete folded `From:` header reassembled into one
space-joined value. -/
theorem c4_folded_header_continuation_witness :
    SpoofGuardBackground.parseEmailHeaders
        ((lc "From" ++ ':' :: lc " Alice Example") ++
          '\n' :: (lc "  " ++ lc "<alice@example.com>")) =
      [(toLowerL (trimL (lc "From")),
        trimL (lc " Alice Example") ++ ' ' :: trimL (lc "<alice@example.com>"))] :=
  c4_folded_header_continuation 'F' (lc "rom") (lc " Alice Example") (lc "  ")
    (lc "<alice@example.com>") (by decide) (by decide) (by decide) (by decide)
    (by decide) (by decide) (by decide) (by decide) (by decide) (by decide)
